import Mathlib

/-!
Shallow embedding of Carla's Juce audio engine and its routing graphs
(CarlaEngineJuce / RackGraph / PatchbayGraph), together with proofs about
the MIDI staging drain, the rack processing chain, and the connection
registry operations of both graph topologies.

Machine integers are modelled as `Nat` with an explicit `% 2^32` where the
source performs 32-bit unsigned arithmetic.  Audio samples are modelled as
`Int`: every property proved here about audio buffers is structural
(copy / add / zero), so the substitution of exact integers for 32-bit
floats does not change any of the statements.
-/

namespace Carla

/-! ## Fixed identifiers

Group and Carla-port ids of the rack topology.  The enum lives in
CarlaEngineGraph.hpp, which is not among the sources; the values are
modelled from the spec, section 3 ("Fixed ids for built-in groups:
Carla=1, AudioIn=2, AudioOut=3, MidiIn=4, MidiOut=5" and rack port ids
"AudioIn1=1, AudioIn2=2, AudioOut1=3, AudioOut2=4, MidiIn=5, MidiOut=6"),
and agree with every use in the sources. -/

@[simp] def RACK_GRAPH_GROUP_CARLA : Nat := 1

@[simp] def RACK_GRAPH_GROUP_AUDIO_IN : Nat := 2

@[simp] def RACK_GRAPH_GROUP_AUDIO_OUT : Nat := 3

@[simp] def RACK_GRAPH_GROUP_MIDI_IN : Nat := 4

@[simp] def RACK_GRAPH_GROUP_MIDI_OUT : Nat := 5

@[simp] def RACK_GRAPH_GROUP_MAX : Nat := 6

@[simp] def RACK_GRAPH_CARLA_PORT_NULL : Nat := 0

@[simp] def RACK_GRAPH_CARLA_PORT_AUDIO_IN1 : Nat := 1

@[simp] def RACK_GRAPH_CARLA_PORT_AUDIO_IN2 : Nat := 2

@[simp] def RACK_GRAPH_CARLA_PORT_AUDIO_OUT1 : Nat := 3

@[simp] def RACK_GRAPH_CARLA_PORT_AUDIO_OUT2 : Nat := 4

@[simp] def RACK_GRAPH_CARLA_PORT_MIDI_IN : Nat := 5

@[simp] def RACK_GRAPH_CARLA_PORT_MIDI_OUT : Nat := 6

@[simp] def RACK_GRAPH_CARLA_PORT_MAX : Nat := 7

/-- Modulus of 32-bit unsigned (`uint` / `uint32_t`) arithmetic. -/
def UINT32_MOD : Nat := 4294967296

/-- `kMaxEngineEventInternalCount`: size of the per-block event buffers.
Modelled from the spec, section 4.1 ("K = maxEngineEventInternalCount
(fixed constant, e.g. 512)"); the constant itself is declared outside the
sources. -/
def kMaxEngineEventInternalCount : Nat := 512

/-! ## MIDI events and the audio-thread drain

`RtMidiEvent` (CarlaEngineJuce, part_000:775-779) and the conversion of
queued events into `events.in` performed by
`CarlaEngineJuce::audioDeviceIOCallback` (part_000:518-548). -/

structure RtMidiEvent where
  /-- `uint64_t time` -- absolute sample counter. -/
  time : Nat
  /-- `uint8_t size`. -/
  size : Nat
  /-- `uint8_t data[EngineMidiEvent::kDataSize]`. -/
  data : List Nat
deriving Repr, DecidableEq

/-- The part of an `EngineEvent` that the drain writes: `time` (a
`uint32_t`, intended block-relative) plus the midi payload copied by
`fillFromMidiData`. -/
structure EngineEvent where
  time : Nat
  size : Nat
  data : List Nat
deriving Repr, DecidableEq

/-- `carla_zeroStruct<EngineEvent>`: the all-zero event. -/
def zeroEngineEvent : EngineEvent := { time := 0, size := 0, data := [] }

/-- Conversion of one queued event inside the drain loop
(part_000:525-540): the three-way `time` normalisation followed by
`fillFromMidiData`.  Note that the middle branch stores
`static_cast<uint32_t>(pData->timeInfo.frame) + nframes - 1` -- the 32-bit
truncation of the *absolute* frame counter plus `nframes - 1`, not
`nframes - 1` itself. -/
def convertRtMidiEvent (frame nframes : Nat) (e : RtMidiEvent) : EngineEvent :=
  if e.time < frame then
    { time := 0, size := e.size, data := e.data }
  else if frame + nframes ≤ e.time then
    { time := (frame % UINT32_MOD + nframes - 1) % UINT32_MOD, size := e.size, data := e.data }
  else
    { time := (e.time - frame) % UINT32_MOD, size := e.size, data := e.data }

/-- The drain loop body (part_000:523-544): each iteration writes
`events.in[engineEventIndex++]` and breaks once the incremented index has
reached `kMaxEngineEventInternalCount`. -/
def drainLoop (frame nframes : Nat) : List RtMidiEvent → Nat → List EngineEvent
  | [], _ => []
  | e :: rest, idx =>
    let ee := convertRtMidiEvent frame nframes e
    if kMaxEngineEventInternalCount ≤ idx + 1 then [ee]
    else ee :: drainLoop frame nframes rest (idx + 1)

/-- The whole per-block drain of the spliced `fMidiInEvents.data` list
into `events.in`, producing the prefix of `events.in` that gets
overwritten (the rest of the array stays zeroed). -/
def drainMidiInEvents (frame nframes : Nat) (queue : List RtMidiEvent) : List EngineEvent :=
  drainLoop frame nframes queue 0

/-- The `events.in` array after the drain, as a function of the index:
indices past the drained prefix hold the zero struct. -/
def eventsInAfterDrain (frame nframes : Nat) (queue : List RtMidiEvent) (i : Nat) : EngineEvent :=
  (drainMidiInEvents frame nframes queue).getD i zeroEngineEvent

/-- `CarlaEngineJuce::handleIncomingMidiMessage` (part_000:622-643): the
driver MIDI-input producer.  `kDataSize` is `EngineMidiEvent::kDataSize`,
declared in CarlaEngine.hpp which is not among the sources, so it is kept
as an explicit parameter here.  Messages of size 0 or larger than
`kDataSize` are dropped; accepted messages are stored with `time = 0` and
the payload zero-padded to `kDataSize` bytes. -/
def handleIncomingMidiMessage (kDataSize : Nat) (pending : List RtMidiEvent)
    (messageSize : Nat) (messageData : List Nat) : List RtMidiEvent :=
  if messageSize = 0 ∨ kDataSize < messageSize then pending
  else pending ++
    [{ time := 0, size := messageSize,
       data := messageData.take messageSize ++ List.replicate (kDataSize - messageSize) 0 }]

/-- Concrete late event for evaluating the drain: queued at absolute time
700 while the engine is at frame 100 with a 512-frame block. -/
def lateMidiEvent : RtMidiEvent := { time := 700, size := 3, data := [144, 60, 100] }

/-! ## Audio buffers -/

/-- One audio sample.  The source uses 32-bit `float`; the properties
established here are structural (copy, add, zero), so samples are
modelled as exact integers. -/
abbrev Sample := Int

/-- One channel's block of `frames` samples. -/
abbrev Buf := List Sample

/-- `FloatVectorOperations::clear`. -/
def zeroBuf (frames : Nat) : Buf := List.replicate frames 0

/-- `FloatVectorOperations::add` of two equal-length buffers. -/
def addBuf (a b : Buf) : Buf := List.zipWith (· + ·) a b

/-! ## Rack audio-input distribution (`RackGraph::processHelper`)

The loop connecting driver input channels to one Carla stereo-input
scratch buffer (part_000:1701-1719 for channel 0, 1723-1741 for
channel 1).  `dev` is the driver's `inBuf` channel array (0-based);
`connected` holds the registered 1-based device-channel indices.
The source indexes the driver array with `inBuf[port]` itself and skips
ports with `port = 0` or `¬ (port < inputs)`. -/
def connectInLoop (inputs : Nat) (dev : List Buf) (frames : Nat) :
    List Nat → Buf → Bool → Buf × Bool
  | [], cur, noConnections => (cur, noConnections)
  | port :: rest, cur, noConnections =>
    if port = 0 then connectInLoop inputs dev frames rest cur noConnections
    else if inputs ≤ port then connectInLoop inputs dev frames rest cur noConnections
    else if noConnections then
      connectInLoop inputs dev frames rest (dev.getD port (zeroBuf frames)) false
    else
      connectInLoop inputs dev frames rest (addBuf cur (dev.getD port (zeroBuf frames))) false

/-- Resulting content of `audio.inBuf[c]` for one Carla input channel:
the loop above, followed by the clear-on-no-connection rule
(part_000:1718-1719). -/
def stageInputChannel (inputs : Nat) (dev : List Buf) (frames : Nat)
    (connected : List Nat) : Buf :=
  let r := connectInLoop inputs dev frames connected (zeroBuf frames) true
  if r.2 then zeroBuf frames else r.1

/-! ## Rack plugin chain (`RackGraph::process`) -/

/-- The *Plugin* capability as used by the rack chain (part_000:1598-1685).
`runAudio` is what `plugin->process` leaves in the (previously zeroed)
stereo output buffers, and `runEvents` what it leaves in the event-out
buffer, as functions of the audio input buffers, the event-in buffer and
the prior content of the event-out buffer. -/
structure RackPlugin where
  enabled : Bool
  lockOk : Bool
  audioInCount : Nat
  audioOutCount : Nat
  midiOutCount : Nat
  runAudio : Buf × Buf → List EngineEvent → Buf × Buf
  runEvents : Buf × Buf → List EngineEvent → List EngineEvent → List EngineEvent

/-- The chain state threaded through the plugin loop of
`RackGraph::process`: the scratch input copy, the output buffers, the
two event buffers, the `processed` flag and the remembered
`oldAudioInCount` / `oldMidiOutCount` of the previously processed
plugin. -/
structure ChainState where
  inBuf : Buf × Buf
  outBuf : Buf × Buf
  evIn : List EngineEvent
  evOut : List EngineEvent
  processed : Bool
  oldAudioInCount : Nat
  oldMidiOutCount : Nat

/-- Audio buffers staged as the current plugin's input
(part_000:1605-1613): the block input for the first processed plugin,
the previous plugin's output afterwards. -/
def stagedAudioIn (st : ChainState) : Buf × Buf :=
  if st.processed then st.outBuf else st.inBuf

/-- Event buffers staged for the current plugin (part_000:1615-1631):
for the first processed plugin the block's own buffers; afterwards, if
the previous plugin had no MIDI output and `events.in` is non-empty the
buffers are left alone (the source's "TODO: carefully add to input,
sorted events" branch does nothing), else `events.out` is copied into
`events.in` and `events.out` is zeroed. -/
def stagedEvents (st : ChainState) : List EngineEvent × List EngineEvent :=
  if st.processed then
    if st.oldMidiOutCount = 0 ∧ st.evIn ≠ [] then (st.evIn, st.evOut)
    else (st.evOut, [])
  else (st.evIn, st.evOut)

/-- One iteration of the plugin loop in `RackGraph::process`
(part_000:1598-1685): a plugin that is disabled or fails `tryLock` is
skipped entirely; otherwise buffers are staged, the plugin runs into
zeroed outputs, and -- the fallback mixing rule -- if its
`audioInCount` was 0 the staged input is summed into the outputs. -/
def rackStep (st : ChainState) (p : RackPlugin) : ChainState :=
  if p.enabled = false ∨ p.lockOk = false then st
  else
    let inB := stagedAudioIn st
    let ev := stagedEvents st
    let produced := p.runAudio inB ev.1
    let producedEv := p.runEvents inB ev.1 ev.2
    let outB :=
      if p.audioInCount = 0 then (addBuf produced.1 inB.1, addBuf produced.2 inB.2)
      else produced
    { inBuf := inB, outBuf := outB, evIn := ev.1, evOut := producedEv,
      processed := true, oldAudioInCount := p.audioInCount,
      oldMidiOutCount := p.midiOutCount }

/-- Chain state on entry to the plugin loop (part_000:1576-1595): input
copied, outputs and event-out zeroed. -/
def rackChainInit (input : Buf × Buf) (evIn : List EngineEvent) : ChainState :=
  { inBuf := input,
    outBuf := (zeroBuf input.1.length, zeroBuf input.2.length),
    evIn := evIn, evOut := [], processed := false,
    oldAudioInCount := 0, oldMidiOutCount := 0 }

/-- The whole plugin chain of `RackGraph::process`. -/
def rackProcessChain (plugins : List RackPlugin) (input : Buf × Buf)
    (evIn : List EngineEvent) : ChainState :=
  plugins.foldl rackStep (rackChainInit input evIn)

/-! ## Patchbay node adapter (`CarlaPluginInstance::processBlock`) -/

/-- The *Plugin* capability as used by the patchbay node adapter
(part_000:1983-2075).  `run` is the in-place result of
`fPlugin->process` on the channel buffers together with the content left
in the default event-out port. -/
structure PatchbayPlugin where
  enabled : Bool
  lockOk : Bool
  audioInCount : Nat
  hasEventInPort : Bool
  hasEventOutPort : Bool
  run : List Buf → List EngineEvent → List Buf × List EngineEvent

/-- `CarlaPluginInstance::processBlock` (part_000:1983-2075): a disabled
or lock-failed plugin clears the audio buffer and the midi buffer and
returns; otherwise the event-in port is filled from the midi buffer
(when present), the audio channels are cleared first when the plugin has
no audio inputs, the plugin processes in place, and the midi buffer is
refilled from the event-out port (when present). -/
def processBlock (p : PatchbayPlugin) (audio : List Buf) (midi : List EngineEvent) :
    List Buf × List EngineEvent :=
  if p.enabled = false ∨ p.lockOk = false then
    (audio.map (fun b => zeroBuf b.length), [])
  else
    let evIn := if p.hasEventInPort then midi else []
    let audioStaged :=
      if audio.length ≠ 0 ∧ p.audioInCount = 0 then audio.map (fun b => zeroBuf b.length)
      else audio
    let r := p.run audioStaged evIn
    let audioRes := if audio.length = 0 then audio else r.1
    (audioRes, if p.hasEventOutPort then r.2 else [])

/-! ## Concrete plugins and buffers used in evaluations -/

/-- An enabled two-output source plugin: ignores its input and produces a
constant block of sevens on both channels. -/
def srcPlugin : RackPlugin :=
  { enabled := true, lockOk := true, audioInCount := 1, audioOutCount := 2,
    midiOutCount := 0,
    runAudio := fun _ _ => ([7, 7], [7, 7]),
    runEvents := fun _ _ _ => [] }

/-- A disabled pass-through plugin. -/
def disabledPlugin : RackPlugin :=
  { enabled := false, lockOk := true, audioInCount := 2, audioOutCount := 2,
    midiOutCount := 0,
    runAudio := fun i _ => i,
    runEvents := fun _ _ _ => [] }

/-- An instrument-style plugin for the bypass-rule witness: no audio
inputs, produces constant fives. -/
def zeroInPlugin : RackPlugin :=
  { enabled := true, lockOk := true, audioInCount := 0, audioOutCount := 2,
    midiOutCount := 1,
    runAudio := fun _ _ => ([5, 5], [5, 5]),
    runEvents := fun _ _ _ => [] }

/-- A disabled patchbay-adapter plugin. -/
def disabledPatchbayPlugin : PatchbayPlugin :=
  { enabled := false, lockOk := true, audioInCount := 2,
    hasEventInPort := true, hasEventOutPort := true,
    run := fun a e => (a, e) }

/-- A midi event used as concrete event-buffer content. -/
def someMidiEvent : EngineEvent := { time := 3, size := 3, data := [144, 60, 100] }

/-- An ordinary queued event (inside the current block). -/
def someRtEvent : RtMidiEvent := { time := 9, size := 3, data := [128, 60, 0] }

/-! ## Connection registry

`ConnectionToId` and the `connections` member (list plus `lastId`) are
declared in CarlaEngineGraph.hpp, which is not among the sources.
Modelled from the spec, section 4.2: an append-only ordered list of
connections plus `lastId : u32`; `add` appends with `id = ++lastId`. -/

structure ConnectionToId where
  id : Nat
  groupA : Nat
  portA : Nat
  groupB : Nat
  portB : Nat
deriving Repr, DecidableEq

structure PatchbayConnectionList where
  list : List ConnectionToId
  lastId : Nat
deriving Repr, DecidableEq

/-- `PortNameToId` entries of `RackGraph::MIDI` (`ins` / `outs`). -/
structure PortNameToId where
  group : Nat
  port : Nat
  name : String
deriving Repr, DecidableEq

/-- `RackGraph::Audio`: the four per-endpoint connection vectors. -/
structure RackGraphAudio where
  connectedIn1 : List Nat
  connectedIn2 : List Nat
  connectedOut1 : List Nat
  connectedOut2 : List Nat
deriving Repr, DecidableEq

/-- `RackGraph::MIDI`. -/
structure RackGraphMidi where
  ins : List PortNameToId
  outs : List PortNameToId
deriving Repr, DecidableEq

/-- `RackGraph::MIDI::getName` (part_000:1122-1136): first entry with a
non-zero group and the requested port id. -/
def RackGraphMidi.getName (m : RackGraphMidi) (isInput : Bool) (portId : Nat) :
    Option String :=
  ((if isInput then m.ins else m.outs).find?
      (fun p => p.group != 0 && p.port == portId)).map (fun p => p.name)

/-- The `RackGraph` state relevant to `connect` / `disconnect`. -/
structure RackGraph where
  connections : PatchbayConnectionList
  inputs : Nat
  outputs : Nat
  audio : RackGraphAudio
  midi : RackGraphMidi
deriving Repr, DecidableEq

/-- Host callbacks fired by the graph operations. -/
inductive EngineCallbackEvent where
  | connectionAdded (id gA pA gB pB : Nat)
  | connectionRemoved (id : Nat)
deriving Repr, DecidableEq

/-- Engine-visible effects of one `connect` / `disconnect` call: the
return value, the value written to the engine's `lastError` during the
call (`none` = untouched), the callbacks fired, and the `ConnectionId`
issued (for `connect`). -/
structure EngineSideEffects where
  ok : Bool
  lastError : Option String
  callbacks : List EngineCallbackEvent
  issuedId : Option Nat
deriving Repr, DecidableEq

/-- External engine facade behaviour for rack MIDI-port device
(dis)connection (`connectRackMidiInPort` and friends open devices on the
driver, outside the graph): an oracle by port name. -/
structure MidiFacade where
  connectIn : String → Bool
  connectOut : String → Bool
  disconnectIn : String → Bool
  disconnectOut : String → Bool

/-- Modelled from the spec, section 4.4: appending a port to a rack
audio connection vector, "duplicate rejected → returns false"
(`LinkedList::append` is declared outside the sources). -/
def appendPort (l : List Nat) (x : Nat) : List Nat × Bool :=
  if x ∈ l then (l, false) else (l ++ [x], true)

/-- `LinkedList::removeOne`: removes the first occurrence, reporting
whether one was found.  Modelled from the spec, section 4.4
("disconnect mirrors the above with removal"). -/
def removeOnePort : List Nat → Nat → List Nat × Bool
  | [], _ => ([], false)
  | y :: rest, x =>
    if y = x then (rest, true)
    else
      let r := removeOnePort rest x
      (y :: r.1, r.2)

/-- A `CARLA_SAFE_ASSERT_RETURN(..., false)` failure: the call returns
false without touching `lastError`, the registry, or callbacks. -/
def assertFail (g : RackGraph) : RackGraph × EngineSideEffects :=
  (g, { ok := false, lastError := none, callbacks := [], issuedId := none })

/-- Tail of `RackGraph::connect` (part_000:1307-1323): on
`makeConnection = false` set `lastError` to "Invalid rack connection"
and return false; otherwise issue `++lastId` (32-bit), fire
`PatchbayConnectionAdded`, append to the registry. -/
def rackConnectFinish (g : RackGraph) (makeConnection : Bool)
    (groupA portA groupB portB : Nat) : RackGraph × EngineSideEffects :=
  if makeConnection = false then
    (g, { ok := false, lastError := some "Invalid rack connection",
          callbacks := [], issuedId := none })
  else
    let newId := (g.connections.lastId + 1) % UINT32_MOD
    ({ g with connections :=
         { list := g.connections.list ++ [⟨newId, groupA, portA, groupB, portB⟩],
           lastId := newId } },
     { ok := true, lastError := none,
       callbacks := [.connectionAdded newId groupA portA groupB portB],
       issuedId := some newId })

/-- The `switch (carlaPort)` of `RackGraph::connect` (part_000:1259-1324),
after the endpoint split: range asserts on the Carla port and the other
group, then the per-port case with its direction assert and connection
step. -/
def rackConnectGo (g : RackGraph) (facade : MidiFacade)
    (carlaPort otherGroup otherPort groupA portA groupB portB : Nat) :
    RackGraph × EngineSideEffects :=
  if ¬ (RACK_GRAPH_CARLA_PORT_NULL < carlaPort ∧ carlaPort < RACK_GRAPH_CARLA_PORT_MAX) then
    assertFail g
  else if ¬ (RACK_GRAPH_GROUP_CARLA < otherGroup ∧ otherGroup < RACK_GRAPH_GROUP_MAX) then
    assertFail g
  else if carlaPort = RACK_GRAPH_CARLA_PORT_AUDIO_IN1 then
    if otherGroup ≠ RACK_GRAPH_GROUP_AUDIO_IN then assertFail g
    else
      let r := appendPort g.audio.connectedIn1 otherPort
      rackConnectFinish { g with audio := { g.audio with connectedIn1 := r.1 } } r.2
        groupA portA groupB portB
  else if carlaPort = RACK_GRAPH_CARLA_PORT_AUDIO_IN2 then
    if otherGroup ≠ RACK_GRAPH_GROUP_AUDIO_IN then assertFail g
    else
      let r := appendPort g.audio.connectedIn2 otherPort
      rackConnectFinish { g with audio := { g.audio with connectedIn2 := r.1 } } r.2
        groupA portA groupB portB
  else if carlaPort = RACK_GRAPH_CARLA_PORT_AUDIO_OUT1 then
    if otherGroup ≠ RACK_GRAPH_GROUP_AUDIO_OUT then assertFail g
    else
      let r := appendPort g.audio.connectedOut1 otherPort
      rackConnectFinish { g with audio := { g.audio with connectedOut1 := r.1 } } r.2
        groupA portA groupB portB
  else if carlaPort = RACK_GRAPH_CARLA_PORT_AUDIO_OUT2 then
    if otherGroup ≠ RACK_GRAPH_GROUP_AUDIO_OUT then assertFail g
    else
      let r := appendPort g.audio.connectedOut2 otherPort
      rackConnectFinish { g with audio := { g.audio with connectedOut2 := r.1 } } r.2
        groupA portA groupB portB
  else if carlaPort = RACK_GRAPH_CARLA_PORT_MIDI_IN then
    if otherGroup ≠ RACK_GRAPH_GROUP_MIDI_IN then assertFail g
    else
      match g.midi.getName true otherPort with
      | some name => rackConnectFinish g (facade.connectIn name) groupA portA groupB portB
      | none => rackConnectFinish g false groupA portA groupB portB
  else if carlaPort = RACK_GRAPH_CARLA_PORT_MIDI_OUT then
    if otherGroup ≠ RACK_GRAPH_GROUP_MIDI_OUT then assertFail g
    else
      match g.midi.getName false otherPort with
      | some name => rackConnectFinish g (facade.connectOut name) groupA portA groupB portB
      | none => rackConnectFinish g false groupA portA groupB portB
  else
    rackConnectFinish g false groupA portA groupB portB

/-- `RackGraph::connect` (part_000:1236-1324). -/
def RackGraph.connect (g : RackGraph) (facade : MidiFacade)
    (groupA portA groupB portB : Nat) : RackGraph × EngineSideEffects :=
  if groupA = RACK_GRAPH_GROUP_CARLA then
    if groupB = RACK_GRAPH_GROUP_CARLA then assertFail g
    else rackConnectGo g facade portA groupB portB groupA portA groupB portB
  else if groupB ≠ RACK_GRAPH_GROUP_CARLA then assertFail g
  else rackConnectGo g facade portB groupA portA groupA portA groupB portB

/-- Core of one matched registry entry inside `RackGraph::disconnect`
(part_000:1341-1411): endpoint split and asserts, the per-port removal
step, then error or callback-and-removal.  `remaining` is the registry
list with the matched entry removed, installed only on success. -/
def rackDisconnectGo (g : RackGraph) (c : ConnectionToId)
    (remaining : List ConnectionToId) (carlaPort : Nat)
    (step : RackGraph × Bool) : RackGraph × EngineSideEffects :=
  if ¬ (RACK_GRAPH_CARLA_PORT_NULL < carlaPort ∧ carlaPort < RACK_GRAPH_CARLA_PORT_MAX) then
    assertFail g
  else if step.2 = false then
    (step.1, { ok := false, lastError := some "Invalid rack connection",
               callbacks := [], issuedId := none })
  else
    ({ step.1 with connections :=
         { list := remaining, lastId := g.connections.lastId } },
     { ok := true, lastError := none,
       callbacks := [.connectionRemoved c.id], issuedId := none })

/-- The removal step for a matched entry: the `switch (carlaPort)` of
`RackGraph::disconnect` (part_000:1365-1400), yielding the updated graph
and `makeDisconnection`. -/
def rackDisconnectStep (g : RackGraph) (facade : MidiFacade)
    (carlaPort otherPort : Nat) : RackGraph × Bool :=
  if carlaPort = RACK_GRAPH_CARLA_PORT_AUDIO_IN1 then
    let r := removeOnePort g.audio.connectedIn1 otherPort
    ({ g with audio := { g.audio with connectedIn1 := r.1 } }, r.2)
  else if carlaPort = RACK_GRAPH_CARLA_PORT_AUDIO_IN2 then
    let r := removeOnePort g.audio.connectedIn2 otherPort
    ({ g with audio := { g.audio with connectedIn2 := r.1 } }, r.2)
  else if carlaPort = RACK_GRAPH_CARLA_PORT_AUDIO_OUT1 then
    let r := removeOnePort g.audio.connectedOut1 otherPort
    ({ g with audio := { g.audio with connectedOut1 := r.1 } }, r.2)
  else if carlaPort = RACK_GRAPH_CARLA_PORT_AUDIO_OUT2 then
    let r := removeOnePort g.audio.connectedOut2 otherPort
    ({ g with audio := { g.audio with connectedOut2 := r.1 } }, r.2)
  else if carlaPort = RACK_GRAPH_CARLA_PORT_MIDI_IN then
    match g.midi.getName true otherPort with
    | some name => (g, facade.disconnectIn name)
    | none => (g, false)
  else if carlaPort = RACK_GRAPH_CARLA_PORT_MIDI_OUT then
    match g.midi.getName false otherPort with
    | some name => (g, facade.disconnectOut name)
    | none => (g, false)
  else (g, false)

/-- One matched entry of `RackGraph::disconnect`: the endpoint split with
its two asserts (part_000:1343-1361), then `rackDisconnectGo`. -/
def rackDisconnectEntry (g : RackGraph) (facade : MidiFacade)
    (c : ConnectionToId) (remaining : List ConnectionToId) :
    RackGraph × EngineSideEffects :=
  if c.groupA = RACK_GRAPH_GROUP_CARLA then
    if c.groupB = RACK_GRAPH_GROUP_CARLA then assertFail g
    else if ¬ (RACK_GRAPH_GROUP_CARLA < c.groupB ∧ c.groupB < RACK_GRAPH_GROUP_MAX) then
      assertFail g
    else rackDisconnectGo g c remaining c.portA (rackDisconnectStep g facade c.portA c.portB)
  else if c.groupB ≠ RACK_GRAPH_GROUP_CARLA then assertFail g
  else if ¬ (RACK_GRAPH_GROUP_CARLA < c.groupA ∧ c.groupA < RACK_GRAPH_GROUP_MAX) then
    assertFail g
  else rackDisconnectGo g c remaining c.portB (rackDisconnectStep g facade c.portB c.portA)

/-- The registry iteration of `RackGraph::disconnect`
(part_000:1331-1415): entries with id 0 and non-matching ids are
skipped; when the loop completes, `lastError` is set to "Failed to find
connection".  `acc` holds the already-passed entries in order. -/
def rackDisconnectLoop (g : RackGraph) (facade : MidiFacade) (connectionId : Nat)
    (acc : List ConnectionToId) : List ConnectionToId → RackGraph × EngineSideEffects
  | [] =>
    (g, { ok := false, lastError := some "Failed to find connection",
          callbacks := [], issuedId := none })
  | c :: rest =>
    if c.id = 0 then rackDisconnectLoop g facade connectionId (acc ++ [c]) rest
    else if c.id ≠ connectionId then rackDisconnectLoop g facade connectionId (acc ++ [c]) rest
    else rackDisconnectEntry g facade c (acc ++ rest)

/-- `RackGraph::disconnect` (part_000:1326-1416): the initial
`CARLA_SAFE_ASSERT_RETURN(connections.list.count() > 0, false)`, then the
registry scan. -/
def RackGraph.disconnect (g : RackGraph) (facade : MidiFacade)
    (connectionId : Nat) : RackGraph × EngineSideEffects :=
  if g.connections.list.length = 0 then assertFail g
  else rackDisconnectLoop g facade connectionId [] g.connections.list

/-! ## Patchbay graph -/

/-- `MAX_PATCHBAY_PLUGINS` (a CarlaBackend constant) and juce's
`AudioProcessorGraph::midiChannelIndex`, both declared outside the
sources; kept as explicit parameters. -/
structure PatchbayConsts where
  maxPatchbayPlugins : Nat
  midiChannelIndex : Nat
deriving Repr, DecidableEq

def kAudioInputPortOffset (c : PatchbayConsts) : Nat := c.maxPatchbayPlugins * 1

def kAudioOutputPortOffset (c : PatchbayConsts) : Nat := c.maxPatchbayPlugins * 2

def kMidiInputPortOffset (c : PatchbayConsts) : Nat := c.maxPatchbayPlugins * 3

def kMidiOutputPortOffset (c : PatchbayConsts) : Nat := c.maxPatchbayPlugins * 3 + 1

/-- `adjustPatchbayPortIdForJuce` (part_000:1791-1819): collapses the
offset-encoded port id to a raw juce channel index (`none` for the
assert-failure returns). -/
def adjustPatchbayPortIdForJuce (c : PatchbayConsts) (portId : Nat) : Option Nat :=
  if ¬ (kAudioInputPortOffset c ≤ portId) then none
  else if ¬ (portId ≤ kMidiOutputPortOffset c) then none
  else if portId = kMidiInputPortOffset c then some c.midiChannelIndex
  else if portId = kMidiOutputPortOffset c then some c.midiChannelIndex
  else if kAudioOutputPortOffset c ≤ portId then some (portId - kAudioOutputPortOffset c)
  else some (portId - kAudioInputPortOffset c)

/-- An edge of the underlying juce `AudioProcessorGraph`. -/
structure JuceEdge where
  sourceNodeId : Nat
  sourceChannelIndex : Nat
  destNodeId : Nat
  destChannelIndex : Nat
deriving Repr, DecidableEq

/-- The underlying juce graph, abstracted to its node-id set and edge
list (the juce module is not among the sources). -/
structure JuceGraph where
  nodes : List Nat
  edges : List JuceEdge
deriving Repr, DecidableEq

/-- Modelled from the spec, section 4.5: `graph.addConnection` validates
the edge internally ("asks the underlying graph to add the edge"); the
validation verdict is abstracted as an oracle. -/
structure JuceOracle where
  accept : JuceGraph → JuceEdge → Bool

/-- `AudioProcessorGraph::addConnection`: appends the edge when the
validation accepts it. -/
def JuceGraph.addConnection (jo : JuceOracle) (g : JuceGraph) (e : JuceEdge) :
    JuceGraph × Bool :=
  if jo.accept g e then ({ g with edges := g.edges ++ [e] }, true) else (g, false)

/-- `AudioProcessorGraph::removeConnection`: removes the edge if present,
reporting whether it existed. -/
def JuceGraph.removeConnection (g : JuceGraph) (e : JuceEdge) : JuceGraph × Bool :=
  if e ∈ g.edges then ({ g with edges := g.edges.erase e }, true) else (g, false)

/-- The `PatchbayGraph` state relevant to the connection operations. -/
structure PatchbayGraph where
  connections : PatchbayConnectionList
  graph : JuceGraph
  inputs : Nat
  outputs : Nat
deriving Repr, DecidableEq

/-- `PatchbayGraph::connect` (part_000:2324-2353): adjust both port ids
(assert-style failure returns false without touching `lastError`), ask
the underlying graph to add the edge ("Failed from juce" on refusal),
then issue `++lastId`, fire the callback, append to the registry. -/
def PatchbayGraph.connect (pg : PatchbayGraph) (c : PatchbayConsts) (jo : JuceOracle)
    (groupA portA groupB portB : Nat) : PatchbayGraph × EngineSideEffects :=
  match adjustPatchbayPortIdForJuce c portA, adjustPatchbayPortIdForJuce c portB with
  | some pa, some pb =>
    let r := JuceGraph.addConnection jo pg.graph ⟨groupA, pa, groupB, pb⟩
    if r.2 = false then
      (pg, { ok := false, lastError := some "Failed from juce",
             callbacks := [], issuedId := none })
    else
      let newId := (pg.connections.lastId + 1) % UINT32_MOD
      let newList := pg.connections.list ++ [⟨newId, groupA, portA, groupB, portB⟩]
      ({ pg with
           graph := r.1,
           connections := { list := newList, lastId := newId } },
       { ok := true, lastError := none,
         callbacks := [.connectionAdded newId groupA portA groupB portB],
         issuedId := some newId })
  | _, _ =>
    (pg, { ok := false, lastError := none, callbacks := [], issuedId := none })

/-- One matched entry of `PatchbayGraph::disconnect`
(part_000:2369-2384): adjust both stored port ids, remove from the
underlying graph, fire the callback, drop the entry. -/
def patchbayDisconnectEntry (pg : PatchbayGraph) (c : PatchbayConsts)
    (x : ConnectionToId) (remaining : List ConnectionToId) :
    PatchbayGraph × EngineSideEffects :=
  match adjustPatchbayPortIdForJuce c x.portA, adjustPatchbayPortIdForJuce c x.portB with
  | some pa, some pb =>
    let r := JuceGraph.removeConnection pg.graph ⟨x.groupA, pa, x.groupB, pb⟩
    if r.2 = false then
      (pg, { ok := false, lastError := none, callbacks := [], issuedId := none })
    else
      ({ pg with
           graph := r.1,
           connections := { list := remaining, lastId := pg.connections.lastId } },
       { ok := true, lastError := none,
         callbacks := [.connectionRemoved x.id], issuedId := none })
  | _, _ =>
    (pg, { ok := false, lastError := none, callbacks := [], issuedId := none })

/-- The registry iteration of `PatchbayGraph::disconnect`
(part_000:2359-2388). -/
def patchbayDisconnectLoop (pg : PatchbayGraph) (c : PatchbayConsts)
    (connectionId : Nat) (acc : List ConnectionToId) :
    List ConnectionToId → PatchbayGraph × EngineSideEffects
  | [] =>
    (pg, { ok := false, lastError := some "Failed to find connection",
           callbacks := [], issuedId := none })
  | x :: rest =>
    if x.id = 0 then patchbayDisconnectLoop pg c connectionId (acc ++ [x]) rest
    else if x.id ≠ connectionId then patchbayDisconnectLoop pg c connectionId (acc ++ [x]) rest
    else patchbayDisconnectEntry pg c x (acc ++ rest)

/-- `PatchbayGraph::disconnect` (part_000:2355-2389). -/
def PatchbayGraph.disconnect (pg : PatchbayGraph) (c : PatchbayConsts)
    (connectionId : Nat) : PatchbayGraph × EngineSideEffects :=
  patchbayDisconnectLoop pg c connectionId [] pg.connections.list

/-- The registry iteration of `PatchbayGraph::disconnectGroup`
(part_000:2395-2421): entries with id 0 are skipped, entries touching
neither endpoint are kept, every other entry is dropped with a
`PatchbayConnectionRemoved` callback; the underlying graph is left alone
(the removal there is commented out in the source). -/
def disconnectGroupLoop (groupId : Nat) :
    List ConnectionToId → List ConnectionToId × List EngineCallbackEvent
  | [] => ([], [])
  | x :: rest =>
    let r := disconnectGroupLoop groupId rest
    if x.id = 0 then (x :: r.1, r.2)
    else if x.groupA ≠ groupId ∧ x.groupB ≠ groupId then (x :: r.1, r.2)
    else (r.1, .connectionRemoved x.id :: r.2)

/-- `PatchbayGraph::disconnectGroup` (part_000:2391-2422). -/
def PatchbayGraph.disconnectGroup (pg : PatchbayGraph) (groupId : Nat) :
    PatchbayGraph × List EngineCallbackEvent :=
  let r := disconnectGroupLoop groupId pg.connections.list
  ({ pg with connections := { list := r.1, lastId := pg.connections.lastId } }, r.2)

/-! ## Operation sequences and issued connection ids -/

/-- A control-thread operation on the rack graph. -/
inductive RackOp where
  | connect (groupA portA groupB portB : Nat)
  | disconnect (connectionId : Nat)
deriving Repr, DecidableEq

/-- One rack operation, exposing the issued `ConnectionId` (if any). -/
def runRackOp (facade : MidiFacade) (g : RackGraph) : RackOp → RackGraph × Option Nat
  | .connect a b c d =>
    let r := g.connect facade a b c d
    (r.1, r.2.issuedId)
  | .disconnect i =>
    let r := g.disconnect facade i
    (r.1, r.2.issuedId)

/-- A generic runner of operation sequences collecting the issued ids in
call order. -/
def runOps {St Op : Type} (step : St → Op → St × Option Nat) :
    St → List Op → St × List Nat
  | s, [] => (s, [])
  | s, op :: rest =>
    let r := step s op
    let r2 := runOps step r.1 rest
    (r2.1, r.2.toList ++ r2.2)

/-- A rack operation sequence runner. -/
def runRackOps (facade : MidiFacade) (g : RackGraph) (ops : List RackOp) :
    RackGraph × List Nat :=
  runOps (runRackOp facade) g ops

/-- A control-thread operation on the patchbay graph. -/
inductive PatchbayOp where
  | connect (groupA portA groupB portB : Nat)
  | disconnect (connectionId : Nat)
deriving Repr, DecidableEq

/-- One patchbay operation, exposing the issued `ConnectionId` (if any). -/
def runPatchbayOp (c : PatchbayConsts) (jo : JuceOracle) (pg : PatchbayGraph) :
    PatchbayOp → PatchbayGraph × Option Nat
  | .connect a b a2 b2 =>
    let r := pg.connect c jo a b a2 b2
    (r.1, r.2.issuedId)
  | .disconnect i =>
    let r := pg.disconnect c i
    (r.1, r.2.issuedId)

/-- A patchbay operation sequence runner. -/
def runPatchbayOps (c : PatchbayConsts) (jo : JuceOracle) (pg : PatchbayGraph)
    (ops : List PatchbayOp) : PatchbayGraph × List Nat :=
  runOps (runPatchbayOp c jo) pg ops

/-- Shape of a rack-operation result that issued no `ConnectionId` and
kept the `lastId` counter at `l0`. -/
abbrev NoIssue (l0 : Nat) (r : RackGraph × EngineSideEffects) : Prop :=
  r.2.issuedId = none ∧ r.1.connections.lastId = l0

/-- Shape of a rack-operation result relative to the prior counter
value `l0`: either nothing was issued and the counter is still `l0`, or
exactly `(l0 + 1) % 2^32` was issued and stored as the new counter. -/
abbrev IssueShape (l0 : Nat) (r : RackGraph × EngineSideEffects) : Prop :=
  NoIssue l0 r ∨
  (r.2.issuedId = some ((l0 + 1) % UINT32_MOD) ∧
    r.1.connections.lastId = (l0 + 1) % UINT32_MOD)

/-- Shape of a patchbay-operation result that issued no `ConnectionId`
and kept the `lastId` counter at `l0`. -/
abbrev PatchbayNoIssue (l0 : Nat) (r : PatchbayGraph × EngineSideEffects) : Prop :=
  r.2.issuedId = none ∧ r.1.connections.lastId = l0

/-- Shape of a patchbay-operation result relative to the prior counter
value `l0`. -/
abbrev PatchbayIssueShape (l0 : Nat) (r : PatchbayGraph × EngineSideEffects) : Prop :=
  PatchbayNoIssue l0 r ∨
  (r.2.issuedId = some ((l0 + 1) % UINT32_MOD) ∧
    r.1.connections.lastId = (l0 + 1) % UINT32_MOD)

/-- A midi facade refusing every device operation (the audio connection
paths never consult it). -/
def nullFacade : MidiFacade :=
  { connectIn := fun _ => false, connectOut := fun _ => false,
    disconnectIn := fun _ => false, disconnectOut := fun _ => false }

/-- A freshly created rack graph (2-in / 2-out device) whose `lastId`
counter has reached `n`. -/
def rackAtLastId (n : Nat) : RackGraph :=
  { connections := { list := [], lastId := n }, inputs := 2, outputs := 2,
    audio := ⟨[], [], [], []⟩, midi := ⟨[], []⟩ }

/-- A freshly created rack graph (2-in / 2-out device). -/
def freshRack : RackGraph := rackAtLastId 0

/-- `n` rounds of connect `AudioIn:1 → Carla:AudioIn1` followed by
disconnect of the id that round issued (round `k`, counted from 1,
issues id `k`). -/
def roundOps (n : Nat) : List RackOp :=
  (List.range n).flatMap fun k =>
    [.connect RACK_GRAPH_GROUP_AUDIO_IN 1 RACK_GRAPH_GROUP_CARLA
        RACK_GRAPH_CARLA_PORT_AUDIO_IN1,
     .disconnect (k + 1)]

/-! ## Validity of rack endpoints

The direction a Carla rack port imposes on the opposite endpoint's
group, mirroring the per-case asserts of the `switch (carlaPort)` in
`RackGraph::connect`. -/

def carlaPortExpectedGroup : Nat → Nat
  | 1 => RACK_GRAPH_GROUP_AUDIO_IN
  | 2 => RACK_GRAPH_GROUP_AUDIO_IN
  | 3 => RACK_GRAPH_GROUP_AUDIO_OUT
  | 4 => RACK_GRAPH_GROUP_AUDIO_OUT
  | 5 => RACK_GRAPH_GROUP_MIDI_IN
  | 6 => RACK_GRAPH_GROUP_MIDI_OUT
  | _ => 0

/-- Exactly one endpoint is in group Carla, its port id is a valid rack
port, and the other endpoint's group matches the direction implied by
that port. -/
def rackEndpointsValid (groupA portA groupB portB : Nat) : Prop :=
  (groupA = RACK_GRAPH_GROUP_CARLA ∧ 1 ≤ portA ∧ portA ≤ 6 ∧
    groupB = carlaPortExpectedGroup portA) ∨
  (groupB = RACK_GRAPH_GROUP_CARLA ∧ 1 ≤ portB ∧ portB ≤ 6 ∧
    groupA = carlaPortExpectedGroup portB)

instance (groupA portA groupB portB : Nat) :
    Decidable (rackEndpointsValid groupA portA groupB portB) := by
  unfold rackEndpointsValid
  infer_instance

/-! ## Concrete states used in evaluations and witnesses -/

/-- Driver input channel buffers of a 2-in device: device channel 1
(index 0) carries `[10, 20]`, device channel 2 (index 1) carries
`[30, 40]`. -/
def devBuffers : List Buf := [[10, 20], [30, 40]]

/-- A rack graph with `AudioIn:1` already connected to `Carla:AudioIn1`. -/
def rackWithIn1 : RackGraph := { freshRack with audio := ⟨[1], [], [], []⟩ }

/-- A rack graph holding one registered connection (id 1,
`AudioIn:1 → Carla:AudioIn1`). -/
def rackWithConn : RackGraph :=
  { freshRack with
      connections := { list := [⟨1, 2, 1, 1, 1⟩], lastId := 1 },
      audio := ⟨[1], [], [], []⟩ }

/-- Concrete patchbay constants for evaluations. -/
def pbConsts : PatchbayConsts := { maxPatchbayPlugins := 10, midiChannelIndex := 4096 }

/-- A patchbay graph with the four built-in nodes and no connections. -/
def freshPatchbay : PatchbayGraph :=
  { connections := { list := [], lastId := 0 },
    graph := { nodes := [1, 2, 3, 4], edges := [] }, inputs := 2, outputs := 2 }

/-- A patchbay graph with three registered connections, two of them
touching group 6. -/
def pbWithConns : PatchbayGraph :=
  { connections :=
      { list := [⟨1, 6, 20, 3, 10⟩, ⟨2, 2, 20, 5, 10⟩, ⟨3, 2, 20, 6, 10⟩],
        lastId := 3 },
    graph := { nodes := [1, 2, 3, 4, 6], edges := [⟨6, 0, 3, 0⟩] },
    inputs := 2, outputs := 2 }

/-- An underlying-graph oracle accepting every edge, for the patchbay
id-monotonicity witness. -/
def acceptAllOracle : JuceOracle := { accept := fun _ _ => true }

/-- Two successive valid patchbay connects (with `pbConsts`: audio out 0
of node 6 to audio in 0 of node 3, then out 1 to in 1), for the
id-monotonicity witness. -/
def twoPatchbayConnectOps : List PatchbayOp :=
  [.connect 6 20 3 10, .connect 6 21 3 11]

/-- Two successive valid rack connects, for the id-monotonicity witness. -/
def twoConnectOps : List RackOp :=
  [.connect RACK_GRAPH_GROUP_AUDIO_IN 1 RACK_GRAPH_GROUP_CARLA
      RACK_GRAPH_CARLA_PORT_AUDIO_IN1,
   .connect RACK_GRAPH_GROUP_AUDIO_IN 2 RACK_GRAPH_GROUP_CARLA
      RACK_GRAPH_CARLA_PORT_AUDIO_IN1]

/-! # Theorems -/

/-- Claim C1: the drain is supposed to clamp a late MIDI event
(`midiEvent.time ≥ frameBase + nframes`) to `time = nframes - 1`, keeping
every drained time in `[0, nframes)`.  Evaluating the drain at
`frame = 100`, `nframes = 512` and one event queued at absolute time 700
shows the code instead writes `frame + nframes - 1 = 611`: an absolute
timestamp, not equal to `nframes - 1 = 511` and outside `[0, nframes)`. -/
theorem lateMidiEvent_drained_time :
    drainMidiInEvents 100 512 [lateMidiEvent] =
      [{ time := 611, size := 3, data := [144, 60, 100] }] ∧
    ¬ ((611 : Nat) < 512) ∧ (611 : Nat) ≠ 512 - 1 := by
  refine ⟨?_, by decide, by decide⟩
  decide

/-- Claim C2: with device input channel 1 carrying `[10, 20]` and channel
2 carrying `[30, 40]` on a 2-input device, connecting only `AudioIn:1` to
`Carla:AudioIn1` is supposed to make `audio.inBuf[0]` a bit-identical
copy of device channel 1.  Evaluating `processHelper`'s distribution loop
shows the code copies driver buffer index 1 -- device channel 2 -- and,
on a 1-input device, rejects `port = inputs` entirely, producing
silence. -/
theorem stageInputChannel_off_by_one :
    stageInputChannel 2 devBuffers 2 [1] = [30, 40] ∧
    ([30, 40] : Buf) ≠ [10, 20] ∧
    stageInputChannel 1 [[10, 20]] 2 [1] = zeroBuf 2 := by
  refine ⟨by decide, by decide, by decide⟩

/-- The drain loop converts exactly `min queueLength (K - idx)` events
when entered with index `idx < K`. -/
theorem drainLoop_length (frame nframes : Nat) :
    ∀ (q : List RtMidiEvent) (idx : Nat), idx < kMaxEngineEventInternalCount →
      (drainLoop frame nframes q idx).length =
        min q.length (kMaxEngineEventInternalCount - idx)
  | [], idx, _ => by simp [drainLoop]
  | e :: rest, idx, h => by
    by_cases hk : kMaxEngineEventInternalCount ≤ idx + 1
    · have hKi : kMaxEngineEventInternalCount - idx = 1 := by omega
      simp [drainLoop, hk, hKi]
    · have hlt : idx + 1 < kMaxEngineEventInternalCount := by omega
      have ih := drainLoop_length frame nframes rest (idx + 1) hlt
      simp [drainLoop, hk, ih]
      omega

/-- The drain loop never looks past the first `K - idx` queued events. -/
theorem drainLoop_take (frame nframes : Nat) :
    ∀ (q : List RtMidiEvent) (idx : Nat), idx < kMaxEngineEventInternalCount →
      drainLoop frame nframes q idx =
        drainLoop frame nframes (q.take (kMaxEngineEventInternalCount - idx)) idx
  | [], idx, _ => by simp
  | e :: rest, idx, h => by
    have htake : (e :: rest).take (kMaxEngineEventInternalCount - idx) =
        e :: rest.take (kMaxEngineEventInternalCount - (idx + 1)) := by
      have h1 : kMaxEngineEventInternalCount - idx =
          (kMaxEngineEventInternalCount - (idx + 1)) + 1 := by omega
      rw [h1, List.take_succ_cons]
    rw [htake]
    by_cases hk : kMaxEngineEventInternalCount ≤ idx + 1
    · simp [drainLoop, hk]
    · have hlt : idx + 1 < kMaxEngineEventInternalCount := by omega
      have ih := drainLoop_take frame nframes rest (idx + 1) hlt
      simp [drainLoop, hk]
      exact ih

/-- Claim C8: the per-block drain converts at most
`K = kMaxEngineEventInternalCount` queued events, writes only `events.in`
indices `0 .. K-1` (every index `≥ K` still holds the zero struct), and
drops queued events beyond the K-th for the block (the drained output
depends only on the first K queue entries). -/
theorem drain_bounded_by_K (frame nframes : Nat) (q : List RtMidiEvent) :
    (drainMidiInEvents frame nframes q).length =
      min q.length kMaxEngineEventInternalCount ∧
    drainMidiInEvents frame nframes q =
      drainMidiInEvents frame nframes (q.take kMaxEngineEventInternalCount) ∧
    ∀ i, kMaxEngineEventInternalCount ≤ i →
      eventsInAfterDrain frame nframes q i = zeroEngineEvent := by
  have hK : (0 : Nat) < kMaxEngineEventInternalCount := by decide
  have hlen := drainLoop_length frame nframes q 0 hK
  have htake := drainLoop_take frame nframes q 0 hK
  refine ⟨?_, ?_, ?_⟩
  · simpa [drainMidiInEvents] using hlen
  · simpa [drainMidiInEvents] using htake
  · intro i hi
    have hle : (drainMidiInEvents frame nframes q).length ≤ i := by
      have : (drainMidiInEvents frame nframes q).length ≤ kMaxEngineEventInternalCount := by
        simpa [drainMidiInEvents] using
          (hlen ▸ Nat.min_le_right q.length (kMaxEngineEventInternalCount - 0))
      omega
    simp [eventsInAfterDrain, List.getD, List.getElem?_eq_none hle]

/-- Witness for C8 at a concrete queue and index. -/
theorem drain_bounded_by_K_witness :
    (drainMidiInEvents 7 16 [someRtEvent]).length =
      min 1 kMaxEngineEventInternalCount ∧
    eventsInAfterDrain 7 16 [someRtEvent] 512 = zeroEngineEvent := by
  have h := drain_bounded_by_K 7 16 [someRtEvent]
  exact ⟨h.1, h.2.2 512 (by decide)⟩

/-- Claim C3: in the rack chain, a processed plugin whose
`audioInCount()` was 0 has -- after its process step -- both stereo output
buffers equal to the plugin's own produced output summed with the audio
that was staged as its input (the block input for the first processed
plugin, the previous plugin's output afterwards). -/
theorem rackStep_bypass_adds_input (st : ChainState) (p : RackPlugin)
    (hen : p.enabled = true) (hlk : p.lockOk = true) (hin : p.audioInCount = 0) :
    (rackStep st p).outBuf =
      (addBuf (p.runAudio (stagedAudioIn st) (stagedEvents st).1).1 (stagedAudioIn st).1,
       addBuf (p.runAudio (stagedAudioIn st) (stagedEvents st).1).2 (stagedAudioIn st).2) := by
  simp [rackStep, hen, hlk, hin]

/-- Witness for C3: the no-audio-input plugin's constant fives are summed
with the staged block input. -/
theorem rackStep_bypass_adds_input_witness :
    (rackStep (rackChainInit ([1, 2], [3, 4]) [someMidiEvent]) zeroInPlugin).outBuf =
      ([6, 7], [8, 9]) := by
  have h := rackStep_bypass_adds_input
    (rackChainInit ([1, 2], [3, 4]) [someMidiEvent]) zeroInPlugin rfl rfl rfl
  rw [h]
  decide

/-- Claim C4 (amended): in the Patchbay node adapter a disabled or
lock-failed plugin clears its audio buffers and its incoming MIDI for
the block; in the Rack chain processor such a plugin is skipped
outright, leaving the whole chain state -- buffers and events --
unchanged (bypass, not silence). -/
theorem disabled_plugin_behaviour (p : PatchbayPlugin) (audio : List Buf)
    (midi : List EngineEvent) (q : RackPlugin) (st : ChainState)
    (hp : p.enabled = false ∨ p.lockOk = false)
    (hq : q.enabled = false ∨ q.lockOk = false) :
    processBlock p audio midi = (audio.map (fun b => zeroBuf b.length), []) ∧
    rackStep st q = st := by
  constructor
  · unfold processBlock
    rw [if_pos hp]
  · unfold rackStep
    rw [if_pos hq]

/-- Witness for C4's amended statement at a concrete disabled plugin. -/
theorem disabled_plugin_behaviour_witness :
    processBlock disabledPatchbayPlugin [[1, 2], [3, 4]] [someMidiEvent] =
      ([[1, 2], [3, 4]].map (fun b => zeroBuf b.length), []) ∧
    rackStep (rackChainInit ([1, 2], [3, 4]) []) disabledPlugin =
      rackChainInit ([1, 2], [3, 4]) [] :=
  disabled_plugin_behaviour disabledPatchbayPlugin [[1, 2], [3, 4]] [someMidiEvent]
    disabledPlugin (rackChainInit ([1, 2], [3, 4]) []) (Or.inl rfl) (Or.inl rfl)

/-- Counterexample to claim C4 as stated: in the Rack chain processor a
disabled plugin does *not* produce silenced outputs nor have its
incoming MIDI cleared -- after a block through `[srcPlugin,
disabledPlugin]` the chain output still carries the first plugin's
sevens and `events.in` still holds the queued event. -/
theorem rack_disabled_plugin_not_silenced :
    (rackProcessChain [srcPlugin, disabledPlugin] ([0, 0], [0, 0])
        [someMidiEvent]).outBuf.1 = [7, 7] ∧
    ([7, 7] : Buf) ≠ zeroBuf 2 ∧
    (rackProcessChain [srcPlugin, disabledPlugin] ([0, 0], [0, 0])
        [someMidiEvent]).evIn = [someMidiEvent] ∧
    [someMidiEvent] ≠ ([] : List EngineEvent) := by
  refine ⟨by decide, by decide, by decide, by decide⟩

/-- The `disconnectGroup` registry loop: on a registry whose ids are all
non-zero it keeps exactly the entries touching neither endpoint and
fires one removal callback per dropped entry, in order. -/
theorem disconnectGroupLoop_spec (gid : Nat) :
    ∀ (l : List ConnectionToId), (∀ x ∈ l, x.id ≠ 0) →
      disconnectGroupLoop gid l =
        (l.filter (fun x => !(x.groupA == gid || x.groupB == gid)),
         (l.filter (fun x => x.groupA == gid || x.groupB == gid)).map
           (fun x => EngineCallbackEvent.connectionRemoved x.id))
  | [], _ => by simp [disconnectGroupLoop]
  | x :: rest, h => by
    have hx : x.id ≠ 0 := h x (by simp)
    have ih := disconnectGroupLoop_spec gid rest (fun y hy => h y (by simp [hy]))
    by_cases hb : x.groupA = gid ∨ x.groupB = gid
    · have hcond : ¬ (x.groupA ≠ gid ∧ x.groupB ≠ gid) := by tauto
      have hbeq : (x.groupA == gid || x.groupB == gid) = true := by
        rcases hb with h1 | h1 <;> simp [h1]
      simp [disconnectGroupLoop, if_neg hx, if_neg hcond, ih, List.filter_cons, hbeq]
    · have hcond : x.groupA ≠ gid ∧ x.groupB ≠ gid := by tauto
      have hbeq : (x.groupA == gid || x.groupB == gid) = false := by
        simp [hcond.1, hcond.2]
      simp [disconnectGroupLoop, if_neg hx, if_pos hcond, ih, List.filter_cons, hbeq]

/-- Claim C9: `PatchbayGraph::disconnectGroup` removes from the registry
exactly the entries whose `groupA` or `groupB` equals the group id,
fires one `PatchbayConnectionRemoved` callback per removed entry (in
registry order), and changes nothing else -- the underlying graph and
the remaining registry entries, `lastId` included, are untouched. -/
theorem disconnectGroup_removes_exactly (pg : PatchbayGraph) (gid : Nat)
    (h : ∀ x ∈ pg.connections.list, x.id ≠ 0) :
    (pg.disconnectGroup gid).1.connections.list =
      pg.connections.list.filter (fun x => !(x.groupA == gid || x.groupB == gid)) ∧
    (pg.disconnectGroup gid).2 =
      (pg.connections.list.filter (fun x => x.groupA == gid || x.groupB == gid)).map
        (fun x => EngineCallbackEvent.connectionRemoved x.id) ∧
    (pg.disconnectGroup gid).1.graph = pg.graph ∧
    (pg.disconnectGroup gid).1.connections.lastId = pg.connections.lastId := by
  have hs := disconnectGroupLoop_spec gid pg.connections.list h
  simp [PatchbayGraph.disconnectGroup, hs]

/-- Witness for C9 on a three-entry registry, removing group 6. -/
theorem disconnectGroup_removes_exactly_witness :
    (pbWithConns.disconnectGroup 6).1.connections.list =
      pbWithConns.connections.list.filter
        (fun x => !(x.groupA == 6 || x.groupB == 6)) ∧
    (pbWithConns.disconnectGroup 6).1.graph = pbWithConns.graph := by
  have h := disconnectGroup_removes_exactly pbWithConns 6 (by decide)
  exact ⟨h.1, h.2.2.1⟩

/-- The `RackGraph::disconnect` registry loop falls through to the
"Failed to find connection" error when no entry carries the requested
id. -/
theorem rackDisconnectLoop_skips_all (g : RackGraph) (f : MidiFacade) (i : Nat) :
    ∀ (l : List ConnectionToId) (acc : List ConnectionToId),
      (∀ x ∈ l, x.id ≠ i) →
      rackDisconnectLoop g f i acc l =
        (g, { ok := false, lastError := some "Failed to find connection",
              callbacks := [], issuedId := none })
  | [], acc, _ => by simp [rackDisconnectLoop]
  | x :: rest, acc, h => by
    have hx : x.id ≠ i := h x (by simp)
    have ih := rackDisconnectLoop_skips_all g f i rest (acc ++ [x])
      (fun y hy => h y (by simp [hy]))
    by_cases h0 : x.id = 0
    · simp [rackDisconnectLoop, h0, ih]
    · simp [rackDisconnectLoop, h0, hx, ih]

/-- The `PatchbayGraph::disconnect` registry loop falls through to the
"Failed to find connection" error when no entry carries the requested
id. -/
theorem patchbayDisconnectLoop_skips_all (pg : PatchbayGraph) (c : PatchbayConsts)
    (j : Nat) :
    ∀ (l : List ConnectionToId) (acc : List ConnectionToId),
      (∀ x ∈ l, x.id ≠ j) →
      patchbayDisconnectLoop pg c j acc l =
        (pg, { ok := false, lastError := some "Failed to find connection",
               callbacks := [], issuedId := none })
  | [], acc, _ => by simp [patchbayDisconnectLoop]
  | x :: rest, acc, h => by
    have hx : x.id ≠ j := h x (by simp)
    have ih := patchbayDisconnectLoop_skips_all pg c j rest (acc ++ [x])
      (fun y hy => h y (by simp [hy]))
    by_cases h0 : x.id = 0
    · simp [patchbayDisconnectLoop, h0, ih]
    · simp [patchbayDisconnectLoop, h0, hx, ih]

/-- Claim C6 (amended): for a connection id absent from the registry,
`PatchbayGraph::disconnect` always returns false with `lastError` set to
"Failed to find connection" and leaves the graph unchanged;
`RackGraph::disconnect` does the same when its registry is non-empty,
but with an empty registry the initial safe-assert makes it return
false without touching `lastError` (and still unchanged). -/
theorem disconnect_unknown_id (g : RackGraph) (f : MidiFacade)
    (pg : PatchbayGraph) (c : PatchbayConsts) (i j : Nat)
    (hg : ∀ x ∈ g.connections.list, x.id ≠ i)
    (hp : ∀ x ∈ pg.connections.list, x.id ≠ j) :
    (g.connections.list ≠ [] →
      (g.disconnect f i).1 = g ∧ (g.disconnect f i).2.ok = false ∧
      (g.disconnect f i).2.lastError = some "Failed to find connection") ∧
    (g.connections.list = [] →
      (g.disconnect f i).1 = g ∧ (g.disconnect f i).2.ok = false ∧
      (g.disconnect f i).2.lastError = none) ∧
    ((pg.disconnect c j).1 = pg ∧ (pg.disconnect c j).2.ok = false ∧
      (pg.disconnect c j).2.lastError = some "Failed to find connection") := by
  refine ⟨?_, ?_, ?_⟩
  · intro hne
    have hlen : ¬ g.connections.list.length = 0 := by
      simpa [List.length_eq_zero] using hne
    have hloop := rackDisconnectLoop_skips_all g f i g.connections.list [] hg
    simp [RackGraph.disconnect, hlen, hloop]
  · intro hemp
    have hlen : g.connections.list.length = 0 := by simp [hemp]
    simp [RackGraph.disconnect, hlen, assertFail]
  · have hloop := patchbayDisconnectLoop_skips_all pg c j pg.connections.list [] hp
    simp [PatchbayGraph.disconnect, hloop]

/-- Witness for C6's amended statement: unknown id 9 on a one-entry rack
registry and on an empty patchbay registry. -/
theorem disconnect_unknown_id_witness :
    (rackWithConn.disconnect nullFacade 9).1 = rackWithConn ∧
    (rackWithConn.disconnect nullFacade 9).2.lastError =
      some "Failed to find connection" ∧
    (freshPatchbay.disconnect pbConsts 9).1 = freshPatchbay ∧
    (freshPatchbay.disconnect pbConsts 9).2.lastError =
      some "Failed to find connection" := by
  have h := disconnect_unknown_id rackWithConn nullFacade freshPatchbay pbConsts 9 9
    (by decide) (by decide)
  have hr := h.1 (by decide)
  exact ⟨hr.1, hr.2.2, h.2.2.1, h.2.2.2.2⟩

/-- Counterexample to claim C6 as stated: with an *empty* registry,
`RackGraph::disconnect` on an unknown id returns false but does not set
`lastError` to "Failed to find connection" (the safe-assert on
`count() > 0` returns first). -/
theorem rackDisconnect_empty_registry_no_error :
    (freshRack.disconnect nullFacade 7).2.ok = false ∧
    (freshRack.disconnect nullFacade 7).2.lastError ≠
      some "Failed to find connection" ∧
    freshRack.connections.list = [] := by
  refine ⟨by decide, by decide, rfl⟩

/-- Behaviour of the validated core of `RackGraph::connect`, stated
against any equivalent reading of endpoint validity in terms of the
Carla port and the other endpoint's group. -/
theorem rackConnectGo_spec (g : RackGraph) (f : MidiFacade)
    (cp og op gA pA gB pB : Nat)
    (hiff : rackEndpointsValid gA pA gB pB ↔
      (1 ≤ cp ∧ cp ≤ 6 ∧ og = carlaPortExpectedGroup cp)) :
    ((rackConnectGo g f cp og op gA pA gB pB).2.ok = true →
      rackEndpointsValid gA pA gB pB) ∧
    ((rackConnectGo g f cp og op gA pA gB pB).2.ok = false →
      (rackConnectGo g f cp og op gA pA gB pB).2.issuedId = none ∧
      (rackConnectGo g f cp og op gA pA gB pB).2.callbacks = [] ∧
      (rackConnectGo g f cp og op gA pA gB pB).1.connections = g.connections ∧
      ((rackConnectGo g f cp og op gA pA gB pB).2.lastError = none ∨
        (rackConnectGo g f cp og op gA pA gB pB).2.lastError =
          some "Invalid rack connection") ∧
      (rackEndpointsValid gA pA gB pB →
        (rackConnectGo g f cp og op gA pA gB pB).2.lastError =
          some "Invalid rack connection")) := by
  by_cases hr1 : RACK_GRAPH_CARLA_PORT_NULL < cp ∧ cp < RACK_GRAPH_CARLA_PORT_MAX
  case neg =>
    have hnv : ¬ rackEndpointsValid gA pA gB pB := by
      rw [hiff]
      rintro ⟨a1, a2, _⟩
      exact hr1 (by simp; omega)
    have hr1f : ¬ (0 < cp ∧ cp < 7) := by simpa using hr1
    simp [rackConnectGo, hr1f, assertFail, hnv]
  case pos =>
    have hr1f : 0 < cp ∧ cp < 7 := by simpa using hr1
    by_cases hr2 : RACK_GRAPH_GROUP_CARLA < og ∧ og < RACK_GRAPH_GROUP_MAX
    case neg =>
      have hnv : ¬ rackEndpointsValid gA pA gB pB := by
        rw [hiff]
        rintro ⟨a1, a2, a3⟩
        apply hr2
        have hc1 : 0 < cp := hr1f.1
        have hc2 : cp < 7 := hr1f.2
        interval_cases cp <;> simp [carlaPortExpectedGroup] at a3 ⊢ <;> omega
      have hr2f : ¬ (1 < og ∧ og < 6) := by simpa using hr2
      simp [rackConnectGo, hr2f, assertFail, hnv]
    case pos =>
      have hr2f : 1 < og ∧ og < 6 := by simpa using hr2
      have hc1 : 0 < cp := hr1f.1
      have hc2 : cp < 7 := hr1f.2
      interval_cases cp
      -- cp = 1 : Carla:AudioIn1
      · by_cases hog : og = RACK_GRAPH_GROUP_AUDIO_IN
        case neg =>
          have hnv : ¬ rackEndpointsValid gA pA gB pB := by
            rw [hiff]
            rintro ⟨_, _, a3⟩
            exact hog (by simpa [carlaPortExpectedGroup] using a3)
          have hogf : ¬ (og = 2) := by simpa using hog
          simp [rackConnectGo, hogf, assertFail, hnv]
        case pos =>
          have hogf : og = 2 := by simpa using hog
          by_cases hdup : op ∈ g.audio.connectedIn1
          · simp [rackConnectGo, hogf, appendPort, hdup, rackConnectFinish]
          · have hv : rackEndpointsValid gA pA gB pB :=
              hiff.mpr ⟨by omega, by omega, by simp [carlaPortExpectedGroup, hog]⟩
            simp [rackConnectGo, hogf, appendPort, hdup, rackConnectFinish, hv]
      -- cp = 2 : Carla:AudioIn2
      · by_cases hog : og = RACK_GRAPH_GROUP_AUDIO_IN
        case neg =>
          have hnv : ¬ rackEndpointsValid gA pA gB pB := by
            rw [hiff]
            rintro ⟨_, _, a3⟩
            exact hog (by simpa [carlaPortExpectedGroup] using a3)
          have hogf : ¬ (og = 2) := by simpa using hog
          simp [rackConnectGo, hogf, assertFail, hnv]
        case pos =>
          have hogf : og = 2 := by simpa using hog
          by_cases hdup : op ∈ g.audio.connectedIn2
          · simp [rackConnectGo, hogf, appendPort, hdup, rackConnectFinish]
          · have hv : rackEndpointsValid gA pA gB pB :=
              hiff.mpr ⟨by omega, by omega, by simp [carlaPortExpectedGroup, hog]⟩
            simp [rackConnectGo, hogf, appendPort, hdup, rackConnectFinish, hv]
      -- cp = 3 : Carla:AudioOut1
      · by_cases hog : og = RACK_GRAPH_GROUP_AUDIO_OUT
        case neg =>
          have hnv : ¬ rackEndpointsValid gA pA gB pB := by
            rw [hiff]
            rintro ⟨_, _, a3⟩
            exact hog (by simpa [carlaPortExpectedGroup] using a3)
          have hogf : ¬ (og = 3) := by simpa using hog
          simp [rackConnectGo, hogf, assertFail, hnv]
        case pos =>
          have hogf : og = 3 := by simpa using hog
          by_cases hdup : op ∈ g.audio.connectedOut1
          · simp [rackConnectGo, hogf, appendPort, hdup, rackConnectFinish]
          · have hv : rackEndpointsValid gA pA gB pB :=
              hiff.mpr ⟨by omega, by omega, by simp [carlaPortExpectedGroup, hog]⟩
            simp [rackConnectGo, hogf, appendPort, hdup, rackConnectFinish, hv]
      -- cp = 4 : Carla:AudioOut2
      · by_cases hog : og = RACK_GRAPH_GROUP_AUDIO_OUT
        case neg =>
          have hnv : ¬ rackEndpointsValid gA pA gB pB := by
            rw [hiff]
            rintro ⟨_, _, a3⟩
            exact hog (by simpa [carlaPortExpectedGroup] using a3)
          have hogf : ¬ (og = 3) := by simpa using hog
          simp [rackConnectGo, hogf, assertFail, hnv]
        case pos =>
          have hogf : og = 3 := by simpa using hog
          by_cases hdup : op ∈ g.audio.connectedOut2
          · simp [rackConnectGo, hogf, appendPort, hdup, rackConnectFinish]
          · have hv : rackEndpointsValid gA pA gB pB :=
              hiff.mpr ⟨by omega, by omega, by simp [carlaPortExpectedGroup, hog]⟩
            simp [rackConnectGo, hogf, appendPort, hdup, rackConnectFinish, hv]
      -- cp = 5 : Carla:MidiIn
      · by_cases hog : og = RACK_GRAPH_GROUP_MIDI_IN
        case neg =>
          have hnv : ¬ rackEndpointsValid gA pA gB pB := by
            rw [hiff]
            rintro ⟨_, _, a3⟩
            exact hog (by simpa [carlaPortExpectedGroup] using a3)
          have hogf : ¬ (og = 4) := by simpa using hog
          simp [rackConnectGo, hogf, assertFail, hnv]
        case pos =>
          have hogf : og = 4 := by simpa using hog
          have hv : rackEndpointsValid gA pA gB pB :=
            hiff.mpr ⟨by omega, by omega, by simp [carlaPortExpectedGroup, hog]⟩
          rcases hname : g.midi.getName true op with _ | name
          · simp [rackConnectGo, hogf, hname, rackConnectFinish]
          · cases hfb : f.connectIn name
            · simp [rackConnectGo, hogf, hname, hfb, rackConnectFinish]
            · simp [rackConnectGo, hogf, hname, hfb, rackConnectFinish, hv]
      -- cp = 6 : Carla:MidiOut
      · by_cases hog : og = RACK_GRAPH_GROUP_MIDI_OUT
        case neg =>
          have hnv : ¬ rackEndpointsValid gA pA gB pB := by
            rw [hiff]
            rintro ⟨_, _, a3⟩
            exact hog (by simpa [carlaPortExpectedGroup] using a3)
          have hogf : ¬ (og = 5) := by simpa using hog
          simp [rackConnectGo, hogf, assertFail, hnv]
        case pos =>
          have hogf : og = 5 := by simpa using hog
          have hv : rackEndpointsValid gA pA gB pB :=
            hiff.mpr ⟨by omega, by omega, by simp [carlaPortExpectedGroup, hog]⟩
          rcases hname : g.midi.getName false op with _ | name
          · simp [rackConnectGo, hogf, hname, rackConnectFinish]
          · cases hfb : f.connectOut name
            · simp [rackConnectGo, hogf, hname, hfb, rackConnectFinish]
            · simp [rackConnectGo, hogf, hname, hfb, rackConnectFinish, hv]

/-- Claim C5 (amended): `RackGraph::connect` succeeds only when exactly
one endpoint is in group Carla, the Carla port id is a valid rack port
and the other endpoint's group matches the direction that port implies;
every failure returns false without issuing a `ConnectionId`, without
appending to the registry and without firing a callback, and `lastError`
is then either set to "Invalid rack connection" (always so when the
endpoints were valid and the connection step itself failed, e.g. a
duplicate audio endpoint) or -- on the safe-assert validation failures --
left untouched. -/
theorem rackConnect_validation (g : RackGraph) (f : MidiFacade)
    (gA pA gB pB : Nat) :
    ((g.connect f gA pA gB pB).2.ok = true → rackEndpointsValid gA pA gB pB) ∧
    ((g.connect f gA pA gB pB).2.ok = false →
      (g.connect f gA pA gB pB).2.issuedId = none ∧
      (g.connect f gA pA gB pB).2.callbacks = [] ∧
      (g.connect f gA pA gB pB).1.connections = g.connections ∧
      ((g.connect f gA pA gB pB).2.lastError = none ∨
        (g.connect f gA pA gB pB).2.lastError = some "Invalid rack connection") ∧
      (rackEndpointsValid gA pA gB pB →
        (g.connect f gA pA gB pB).2.lastError = some "Invalid rack connection")) := by
  by_cases h1 : gA = RACK_GRAPH_GROUP_CARLA
  · by_cases h2 : gB = RACK_GRAPH_GROUP_CARLA
    · have hnv : ¬ rackEndpointsValid gA pA gB pB := by
        unfold rackEndpointsValid
        rintro (⟨a1, a2, a3, a4⟩ | ⟨a1, a2, a3, a4⟩)
        · rw [h2] at a4
          interval_cases pA <;> simp [carlaPortExpectedGroup] at a4
        · rw [h1] at a4
          interval_cases pB <;> simp [carlaPortExpectedGroup] at a4
      have h1f : gA = 1 := by simpa using h1
      have h2f : gB = 1 := by simpa using h2
      rw [h1f, h2f] at hnv
      simp [RackGraph.connect, h1f, h2f, assertFail, hnv]
    · have hiff : rackEndpointsValid gA pA gB pB ↔
          (1 ≤ pA ∧ pA ≤ 6 ∧ gB = carlaPortExpectedGroup pA) := by
        unfold rackEndpointsValid
        constructor
        · rintro (⟨a1, a2, a3, a4⟩ | ⟨a1, a2, a3, a4⟩)
          · exact ⟨a2, a3, a4⟩
          · exact absurd a1 h2
        · rintro ⟨a1, a2, a3⟩
          exact Or.inl ⟨h1, a1, a2, a3⟩
      have hspec := rackConnectGo_spec g f pA gB pB gA pA gB pB hiff
      have h1f : gA = 1 := by simpa using h1
      have h2f : ¬ (gB = 1) := by simpa using h2
      simpa [RackGraph.connect, h1f, h2f] using hspec
  · by_cases h2 : gB = RACK_GRAPH_GROUP_CARLA
    · have hiff : rackEndpointsValid gA pA gB pB ↔
          (1 ≤ pB ∧ pB ≤ 6 ∧ gA = carlaPortExpectedGroup pB) := by
        unfold rackEndpointsValid
        constructor
        · rintro (⟨a1, a2, a3, a4⟩ | ⟨a1, a2, a3, a4⟩)
          · exact absurd a1 h1
          · exact ⟨a2, a3, a4⟩
        · rintro ⟨a1, a2, a3⟩
          exact Or.inr ⟨h2, a1, a2, a3⟩
      have hspec := rackConnectGo_spec g f pB gA pA gA pA gB pB hiff
      have h1f : ¬ (gA = 1) := by simpa using h1
      have h2f : gB = 1 := by simpa using h2
      simpa [RackGraph.connect, h1f, h2f] using hspec
    · have hnv : ¬ rackEndpointsValid gA pA gB pB := by
        unfold rackEndpointsValid
        rintro (⟨a1, _⟩ | ⟨a1, _⟩)
        · exact h1 a1
        · exact h2 a1
      have h1f : ¬ (gA = 1) := by simpa using h1
      have h2f : ¬ (gB = 1) := by simpa using h2
      simp [RackGraph.connect, h1f, h2f, assertFail, hnv]

/-- Witness for C5's amended statement: a duplicate audio endpoint
(`AudioIn:1 → Carla:AudioIn1` on a rack where that link already exists)
fails with "Invalid rack connection", no issued id and no callback. -/
theorem rackConnect_validation_witness :
    (rackWithIn1.connect nullFacade 2 1 1 1).2.lastError =
      some "Invalid rack connection" ∧
    (rackWithIn1.connect nullFacade 2 1 1 1).2.issuedId = none ∧
    (rackWithIn1.connect nullFacade 2 1 1 1).2.callbacks = [] := by
  have h := (rackConnect_validation rackWithIn1 nullFacade 2 1 1 1).2 (by decide)
  exact ⟨h.2.2.2.2 (by decide), h.1, h.2.1⟩

/-- Counterexample to claim C5 as stated: a validation failure (both
endpoints in group Carla) returns false but does *not* set `lastError`
to "Invalid rack connection" -- the safe-assert merely returns. -/
theorem rackConnect_assert_sets_no_error :
    (freshRack.connect nullFacade 1 1 1 3).2.ok = false ∧
    (freshRack.connect nullFacade 1 1 1 3).2.lastError ≠
      some "Invalid rack connection" := by
  refine ⟨by decide, by decide⟩

/-- `rackConnectFinish` either issues nothing and keeps `lastId`, or
issues exactly `(lastId + 1) % 2^32` and stores it as the new `lastId`. -/
theorem rackConnectFinish_issue (g : RackGraph) (mk : Bool) (a b c d : Nat) :
    IssueShape g.connections.lastId (rackConnectFinish g mk a b c d) := by
  cases mk
  · left
    exact ⟨rfl, rfl⟩
  · right
    exact ⟨rfl, rfl⟩

/-- The validated core of `RackGraph::connect` either issues nothing and
keeps `lastId`, or issues exactly `(lastId + 1) % 2^32` and stores it. -/
theorem rackConnectGo_issue (g : RackGraph) (f : MidiFacade)
    (cp og op gA pA gB pB : Nat) :
    IssueShape g.connections.lastId (rackConnectGo g f cp og op gA pA gB pB) := by
  unfold rackConnectGo
  repeat' split
  all_goals first
    | (left; exact ⟨rfl, rfl⟩)
    | exact rackConnectFinish_issue _ _ _ _ _ _

/-- `RackGraph::connect` either issues nothing and keeps `lastId`, or
issues exactly `(lastId + 1) % 2^32` and stores it. -/
theorem rackConnect_issue_cases (g : RackGraph) (f : MidiFacade)
    (gA pA gB pB : Nat) :
    IssueShape g.connections.lastId (g.connect f gA pA gB pB) := by
  unfold RackGraph.connect
  repeat' split
  all_goals first
    | (left; exact ⟨rfl, rfl⟩)
    | exact rackConnectGo_issue _ _ _ _ _ _ _ _ _

/-- The removal step of `RackGraph::disconnect` only touches the audio
vectors. -/
theorem rackDisconnectStep_connections (g : RackGraph) (f : MidiFacade)
    (cp op : Nat) :
    (rackDisconnectStep g f cp op).1.connections = g.connections := by
  unfold rackDisconnectStep
  repeat' split
  all_goals rfl

/-- A matched `RackGraph::disconnect` entry never issues an id and never
moves `lastId`. -/
theorem rackDisconnectEntry_no_issue (g : RackGraph) (f : MidiFacade)
    (c : ConnectionToId) (rem : List ConnectionToId) :
    NoIssue g.connections.lastId (rackDisconnectEntry g f c rem) := by
  unfold rackDisconnectEntry rackDisconnectGo
  repeat' split
  all_goals first
    | exact ⟨rfl, rfl⟩
    | (refine ⟨rfl, ?_⟩; rw [rackDisconnectStep_connections])

/-- The `RackGraph::disconnect` loop never issues an id and never moves
`lastId`. -/
theorem rackDisconnectLoop_no_issue (g : RackGraph) (f : MidiFacade) (i : Nat) :
    ∀ (l : List ConnectionToId) (acc : List ConnectionToId),
      NoIssue g.connections.lastId (rackDisconnectLoop g f i acc l)
  | [], acc => ⟨rfl, rfl⟩
  | c :: rest, acc => by
    unfold rackDisconnectLoop
    split
    · exact rackDisconnectLoop_no_issue g f i rest (acc ++ [c])
    · split
      · exact rackDisconnectLoop_no_issue g f i rest (acc ++ [c])
      · exact rackDisconnectEntry_no_issue g f c (acc ++ rest)

/-- `RackGraph::disconnect` never issues an id and never moves `lastId`. -/
theorem rackDisconnect_no_issue (g : RackGraph) (f : MidiFacade) (i : Nat) :
    NoIssue g.connections.lastId (g.disconnect f i) := by
  unfold RackGraph.disconnect
  split
  · exact ⟨rfl, rfl⟩
  · exact rackDisconnectLoop_no_issue g f i g.connections.list []

/-- One rack operation either issues nothing and keeps `lastId`, or
issues exactly `(lastId + 1) % 2^32` and stores it. -/
theorem runRackOp_issue (f : MidiFacade) (g : RackGraph) (op : RackOp) :
    ((runRackOp f g op).2 = none ∧
      (runRackOp f g op).1.connections.lastId = g.connections.lastId) ∨
    ((runRackOp f g op).2 = some ((g.connections.lastId + 1) % UINT32_MOD) ∧
      (runRackOp f g op).1.connections.lastId =
        (g.connections.lastId + 1) % UINT32_MOD) := by
  cases op with
  | connect a b c d =>
    rcases rackConnect_issue_cases g f a b c d with ⟨h1, h2⟩ | ⟨h1, h2⟩
    · left
      exact ⟨by simp [runRackOp, h1], by simpa [runRackOp] using h2⟩
    · right
      exact ⟨by simp [runRackOp, h1], by simpa [runRackOp] using h2⟩
  | disconnect i =>
    left
    obtain ⟨h1, h2⟩ := rackDisconnect_no_issue g f i
    exact ⟨by simp [runRackOp, h1], by simpa [runRackOp] using h2⟩

/-- `PatchbayGraph::connect` either issues nothing and keeps `lastId`,
or issues exactly `(lastId + 1) % 2^32` and stores it. -/
theorem patchbayConnect_issue_cases (pg : PatchbayGraph) (c : PatchbayConsts)
    (jo : JuceOracle) (gA pA gB pB : Nat) :
    PatchbayIssueShape pg.connections.lastId (pg.connect c jo gA pA gB pB) := by
  unfold PatchbayGraph.connect
  rcases ha : adjustPatchbayPortIdForJuce c pA with _ | pa
  · simp only [ha]
    exact Or.inl ⟨rfl, rfl⟩
  · rcases hb : adjustPatchbayPortIdForJuce c pB with _ | pb
    · simp only [ha, hb]
      exact Or.inl ⟨rfl, rfl⟩
    · simp only [ha, hb]
      by_cases hacc : jo.accept pg.graph ⟨gA, pa, gB, pb⟩
      · right
        simp [JuceGraph.addConnection, hacc]
        try exact ⟨rfl, rfl⟩
      · left
        simp [JuceGraph.addConnection, hacc]
        try exact ⟨rfl, rfl⟩

/-- A matched `PatchbayGraph::disconnect` entry never issues an id and
never moves `lastId`. -/
theorem patchbayDisconnectEntry_no_issue (pg : PatchbayGraph)
    (c : PatchbayConsts) (x : ConnectionToId) (rem : List ConnectionToId) :
    PatchbayNoIssue pg.connections.lastId (patchbayDisconnectEntry pg c x rem) := by
  unfold patchbayDisconnectEntry
  rcases ha : adjustPatchbayPortIdForJuce c x.portA with _ | pa
  · simp only [ha]
    exact ⟨rfl, rfl⟩
  · rcases hb : adjustPatchbayPortIdForJuce c x.portB with _ | pb
    · simp only [ha, hb]
      exact ⟨rfl, rfl⟩
    · simp only [ha, hb]
      by_cases hmem : (⟨x.groupA, pa, x.groupB, pb⟩ : JuceEdge) ∈ pg.graph.edges
      · simp [JuceGraph.removeConnection, hmem]
        try exact ⟨rfl, rfl⟩
      · simp [JuceGraph.removeConnection, hmem]
        try exact ⟨rfl, rfl⟩

/-- The `PatchbayGraph::disconnect` loop never issues an id and never
moves `lastId`. -/
theorem patchbayDisconnectLoop_no_issue (pg : PatchbayGraph)
    (c : PatchbayConsts) (j : Nat) :
    ∀ (l : List ConnectionToId) (acc : List ConnectionToId),
      PatchbayNoIssue pg.connections.lastId (patchbayDisconnectLoop pg c j acc l)
  | [], acc => ⟨rfl, rfl⟩
  | x :: rest, acc => by
    unfold patchbayDisconnectLoop
    split
    · exact patchbayDisconnectLoop_no_issue pg c j rest (acc ++ [x])
    · split
      · exact patchbayDisconnectLoop_no_issue pg c j rest (acc ++ [x])
      · exact patchbayDisconnectEntry_no_issue pg c x (acc ++ rest)

/-- `PatchbayGraph::disconnect` never issues an id and never moves
`lastId`. -/
theorem patchbayDisconnect_no_issue (pg : PatchbayGraph) (c : PatchbayConsts)
    (j : Nat) :
    PatchbayNoIssue pg.connections.lastId (pg.disconnect c j) :=
  patchbayDisconnectLoop_no_issue pg c j pg.connections.list []

/-- One patchbay operation either issues nothing and keeps `lastId`, or
issues exactly `(lastId + 1) % 2^32` and stores it. -/
theorem runPatchbayOp_issue (c : PatchbayConsts) (jo : JuceOracle)
    (pg : PatchbayGraph) (op : PatchbayOp) :
    ((runPatchbayOp c jo pg op).2 = none ∧
      (runPatchbayOp c jo pg op).1.connections.lastId =
        pg.connections.lastId) ∨
    ((runPatchbayOp c jo pg op).2 =
        some ((pg.connections.lastId + 1) % UINT32_MOD) ∧
      (runPatchbayOp c jo pg op).1.connections.lastId =
        (pg.connections.lastId + 1) % UINT32_MOD) := by
  cases op with
  | connect a b a2 b2 =>
    rcases patchbayConnect_issue_cases pg c jo a b a2 b2 with ⟨h1, h2⟩ | ⟨h1, h2⟩
    · left
      exact ⟨by simp [runPatchbayOp, h1], by simpa [runPatchbayOp] using h2⟩
    · right
      exact ⟨by simp [runPatchbayOp, h1], by simpa [runPatchbayOp] using h2⟩
  | disconnect i =>
    left
    obtain ⟨h1, h2⟩ := patchbayDisconnect_no_issue pg c i
    exact ⟨by simp [runPatchbayOp, h1], by simpa [runPatchbayOp] using h2⟩

/-- Issued ids of an operation sequence, when every step either issues
`(lastId + 1) % 2^32` or leaves `lastId` alone: as long as the final
counter value stays below `2^32`, the ids are exactly the consecutive
integers starting right above the initial counter. -/
theorem runOps_issued_shape {St Op : Type} (step : St → Op → St × Option Nat)
    (lastIdOf : St → Nat)
    (hstep : ∀ s op,
      ((step s op).2 = none ∧ lastIdOf (step s op).1 = lastIdOf s) ∨
      ((step s op).2 = some ((lastIdOf s + 1) % UINT32_MOD) ∧
        lastIdOf (step s op).1 = (lastIdOf s + 1) % UINT32_MOD)) :
    ∀ (ops : List Op) (s : St),
      lastIdOf s + ((runOps step s ops).2).length < UINT32_MOD →
      (runOps step s ops).2 =
        (List.range ((runOps step s ops).2).length).map
          (fun j => lastIdOf s + 1 + j) ∧
      lastIdOf (runOps step s ops).1 =
        lastIdOf s + ((runOps step s ops).2).length
  | [], s, h => by simp [runOps]
  | op :: rest, s, h => by
    have hun : runOps step s (op :: rest) =
        ((runOps step (step s op).1 rest).1,
         (step s op).2.toList ++ (runOps step (step s op).1 rest).2) := rfl
    rcases hstep s op with ⟨h1, h2⟩ | ⟨h1, h2⟩
    · rw [hun] at h ⊢
      rw [h1] at h ⊢
      simp only [Option.toList_none, List.nil_append] at h ⊢
      have ih := runOps_issued_shape step lastIdOf hstep rest (step s op).1
        (by rw [h2]; exact h)
      rw [h2] at ih
      exact ih
    · rw [hun] at h ⊢
      rw [h1] at h ⊢
      simp only [Option.toList_some, List.singleton_append,
        List.length_cons] at h ⊢
      have hM1 : (1 : Nat) ≤ UINT32_MOD := by norm_num [UINT32_MOD]
      have hlt : lastIdOf s + 1 < UINT32_MOD := by omega
      have hmod : (lastIdOf s + 1) % UINT32_MOD = lastIdOf s + 1 :=
        Nat.mod_eq_of_lt hlt
      rw [hmod] at h2 ⊢
      have ih := runOps_issued_shape step lastIdOf hstep rest (step s op).1
        (by rw [h2]; omega)
      rw [h2] at ih
      obtain ⟨ihl, ihid⟩ := ih
      constructor
      · rw [ihl]
        simp only [List.length_map, List.length_range]
        rw [List.range_succ_eq_map, List.map_cons, List.map_map]
        congr 1
        apply List.map_congr_left
        intro a _
        simp only [Function.comp]
        omega
      · rw [ihid]
        omega

/-- A shifted `List.range` is strictly increasing, avoids 0, and stays
above the shift base. -/
theorem chain_lt_shift_range (a n : Nat) :
    List.Chain' (· < ·) ((List.range n).map (fun j => a + 1 + j)) ∧
    (0 : Nat) ∉ (List.range n).map (fun j => a + 1 + j) ∧
    ∀ i ∈ (List.range n).map (fun j => a + 1 + j), a < i := by
  refine ⟨?_, ?_, ?_⟩
  · apply List.Pairwise.chain'
    exact (List.pairwise_lt_range n).map _ (fun x y hxy => by omega)
  · intro hmem
    obtain ⟨j, _, hj⟩ := List.mem_map.mp hmem
    omega
  · intro i hi
    obtain ⟨j, _, hj⟩ := List.mem_map.mp hi
    omega

/-- Any operation sequence whose steps issue ids by `++lastId` (32-bit)
produces a strictly increasing, non-zero id sequence above the starting
counter, as long as the final counter value stays below `2^32`. -/
theorem runOps_ids_monotone {St Op : Type} (step : St → Op → St × Option Nat)
    (lastIdOf : St → Nat)
    (hstep : ∀ s op,
      ((step s op).2 = none ∧ lastIdOf (step s op).1 = lastIdOf s) ∨
      ((step s op).2 = some ((lastIdOf s + 1) % UINT32_MOD) ∧
        lastIdOf (step s op).1 = (lastIdOf s + 1) % UINT32_MOD))
    (ops : List Op) (s : St)
    (h : lastIdOf s + ((runOps step s ops).2).length < UINT32_MOD) :
    List.Chain' (· < ·) (runOps step s ops).2 ∧
    (0 : Nat) ∉ (runOps step s ops).2 ∧
    ∀ i ∈ (runOps step s ops).2, lastIdOf s < i := by
  obtain ⟨hlist, _⟩ := runOps_issued_shape step lastIdOf hstep ops s h
  have hc := chain_lt_shift_range (lastIdOf s) ((runOps step s ops).2).length
  refine ⟨?_, ?_, ?_⟩
  · rw [show (runOps step s ops).2 = _ from hlist]
    exact hc.1
  · rw [show (runOps step s ops).2 = _ from hlist]
    exact hc.2.1
  · intro i hi
    rw [show (runOps step s ops).2 = _ from hlist] at hi
    exact hc.2.2 i hi

/-- Claim C7 (amended): within one graph's lifetime -- for the rack graph
and the patchbay graph alike -- as long as the final value of the 32-bit
`lastId` counter stays below `2^32`, the `ConnectionId`s issued by the
successful `connect` calls of any operation sequence form a strictly
increasing sequence, never contain 0, and all exceed the starting
counter value (so none is reused). -/
theorem connectionIds_strictly_increasing (f : MidiFacade) (g : RackGraph)
    (ops : List RackOp) (c : PatchbayConsts) (jo : JuceOracle)
    (pg : PatchbayGraph) (pops : List PatchbayOp)
    (hr : g.connections.lastId + ((runRackOps f g ops).2).length < UINT32_MOD)
    (hp : pg.connections.lastId + ((runPatchbayOps c jo pg pops).2).length <
      UINT32_MOD) :
    (List.Chain' (· < ·) (runRackOps f g ops).2 ∧
      (0 : Nat) ∉ (runRackOps f g ops).2 ∧
      ∀ i ∈ (runRackOps f g ops).2, g.connections.lastId < i) ∧
    (List.Chain' (· < ·) (runPatchbayOps c jo pg pops).2 ∧
      (0 : Nat) ∉ (runPatchbayOps c jo pg pops).2 ∧
      ∀ i ∈ (runPatchbayOps c jo pg pops).2, pg.connections.lastId < i) := by
  constructor
  · exact runOps_ids_monotone (runRackOp f) (fun s => s.connections.lastId)
      (fun s op => runRackOp_issue f s op) ops g hr
  · exact runOps_ids_monotone (runPatchbayOp c jo)
      (fun s => s.connections.lastId)
      (fun s op => runPatchbayOp_issue c jo s op) pops pg hp

/-- Witness for C7's amended statement: two successive connects from a
fresh rack, and two from a fresh patchbay, each issue a strictly
increasing, non-zero id sequence. -/
theorem connectionIds_strictly_increasing_witness :
    (List.Chain' (· < ·) (runRackOps nullFacade freshRack twoConnectOps).2 ∧
      (0 : Nat) ∉ (runRackOps nullFacade freshRack twoConnectOps).2) ∧
    (List.Chain' (· < ·)
        (runPatchbayOps pbConsts acceptAllOracle freshPatchbay
          twoPatchbayConnectOps).2 ∧
      (0 : Nat) ∉ (runPatchbayOps pbConsts acceptAllOracle freshPatchbay
          twoPatchbayConnectOps).2) := by
  have h := connectionIds_strictly_increasing nullFacade freshRack twoConnectOps
    pbConsts acceptAllOracle freshPatchbay twoPatchbayConnectOps
    (by decide) (by decide)
  exact ⟨⟨h.1.1, h.1.2.1⟩, ⟨h.2.1, h.2.2.1⟩⟩

/-- Running a concatenated operation sequence splits into running the
two halves. -/
theorem runOps_append {St Op : Type} (step : St → Op → St × Option Nat) :
    ∀ (l1 l2 : List Op) (s : St),
      runOps step s (l1 ++ l2) =
        ((runOps step (runOps step s l1).1 l2).1,
         (runOps step s l1).2 ++ (runOps step (runOps step s l1).1 l2).2)
  | [], l2, s => by simp [runOps]
  | op :: rest, l2, s => by
    simp [runOps, runOps_append step rest l2 (step s op).1]

/-- Unrolling one round of connect-then-disconnect. -/
theorem roundOps_succ (n : Nat) :
    roundOps (n + 1) = roundOps n ++
      [RackOp.connect 2 1 1 1, RackOp.disconnect (n + 1)] := by
  simp [roundOps, List.range_succ]

/-- One full round on a fresh rack whose counter is at `n`: the connect
issues `n + 1` and the disconnect restores the fresh shape, leaving the
counter at `n + 1`. -/
theorem round_eval (n : Nat) (h : n + 1 < UINT32_MOD) :
    runRackOps nullFacade (rackAtLastId n)
      [RackOp.connect 2 1 1 1, RackOp.disconnect (n + 1)] =
      (rackAtLastId (n + 1), [n + 1]) := by
  have hmod : (n + 1) % UINT32_MOD = n + 1 := Nat.mod_eq_of_lt h
  simp [runRackOps, runOps, runRackOp, RackGraph.connect, rackConnectGo,
    rackConnectFinish, appendPort, RackGraph.disconnect, rackDisconnectLoop,
    rackDisconnectEntry, rackDisconnectGo, rackDisconnectStep, removeOnePort,
    rackAtLastId, hmod]

/-- After `n` rounds (for `n ≤ 2^32 - 1`) the graph is back to the fresh
shape with `lastId = n`. -/
theorem afterRounds_state :
    ∀ n : Nat, n ≤ UINT32_MOD - 1 →
      (runRackOps nullFacade freshRack (roundOps n)).1 = rackAtLastId n
  | 0, _ => by simp [roundOps, runRackOps, runOps, freshRack]
  | n + 1, h => by
    have hM : (1 : Nat) ≤ UINT32_MOD := by norm_num [UINT32_MOD]
    have hMsub : UINT32_MOD - 1 + 1 = UINT32_MOD := by omega
    have hlt : n + 1 < UINT32_MOD := by omega
    have ih := afterRounds_state n (by omega)
    rw [roundOps_succ]
    have happ := runOps_append (runRackOp nullFacade) (roundOps n)
      [RackOp.connect 2 1 1 1, RackOp.disconnect (n + 1)] freshRack
    simp only [runRackOps] at ih ⊢
    rw [happ]
    rw [ih]
    have hr := round_eval n hlt
    simp only [runRackOps] at hr
    rw [hr]

/-- Counterexample to claim C7 as stated: `lastId` is a 32-bit counter,
so after `2^32 - 1` connect/disconnect rounds within one graph lifetime
the next successful `connect` issues `ConnectionId` 0 -- the reserved
invalid id, and not greater than its predecessors. -/
theorem connectionId_wraps_to_zero :
    ((runRackOps nullFacade freshRack
        (roundOps (UINT32_MOD - 1))).1.connect nullFacade 2 1 1 1).2.ok = true ∧
    ((runRackOps nullFacade freshRack
        (roundOps (UINT32_MOD - 1))).1.connect nullFacade 2 1 1 1).2.issuedId =
      some 0 := by
  have hst := afterRounds_state (UINT32_MOD - 1) (le_refl _)
  rw [hst]
  have hmod : (UINT32_MOD - 1 + 1) % UINT32_MOD = 0 := by
    norm_num [UINT32_MOD]
  constructor <;>
    simp [RackGraph.connect, rackConnectGo, rackConnectFinish, appendPort,
      rackAtLastId, hmod]

/-- The driver MIDI-input producer, parametric in
`EngineMidiEvent::kDataSize` (whose value is declared outside the
sources): a message is appended iff its raw size is between 1 and
`kDataSize` bytes, zero-padded to `kDataSize` bytes with `time = 0`; a
drained event queued with `time = 0` always normalises to block offset
0 (for any non-empty block). -/
theorem handleIncomingMidiMessage_behaviour (kDataSize : Nat)
    (pending : List RtMidiEvent) (sz : Nat) (dat : List Nat)
    (hlen : dat.length = sz) :
    (sz = 0 ∨ kDataSize < sz →
      handleIncomingMidiMessage kDataSize pending sz dat = pending) ∧
    (1 ≤ sz → sz ≤ kDataSize →
      handleIncomingMidiMessage kDataSize pending sz dat =
        pending ++ [{ time := 0, size := sz,
                      data := dat ++ List.replicate (kDataSize - sz) 0 }] ∧
      (dat ++ List.replicate (kDataSize - sz) 0).length = kDataSize) ∧
    (∀ frame nframes : Nat, 0 < nframes →
      ∀ e : RtMidiEvent, e.time = 0 →
        (convertRtMidiEvent frame nframes e).time = 0) := by
  refine ⟨?_, ?_, ?_⟩
  · intro h
    simp [handleIncomingMidiMessage, h]
  · intro h1 h2
    have hcond : ¬ (sz = 0 ∨ kDataSize < sz) := by omega
    have htake : dat.take sz = dat := by
      rw [← hlen]
      simp
    constructor
    · simp [handleIncomingMidiMessage, hcond, htake]
    · simp [hlen]
      omega
  · intro frame nframes hn e he
    unfold convertRtMidiEvent
    rcases Nat.eq_zero_or_pos frame with hf | hf
    · have h1 : ¬ (e.time < frame) := by omega
      have h2 : ¬ (nframes = 0) := by omega
      simp [h1, h2, he, hf]
    · have h1 : e.time < frame := by omega
      simp [h1]

/-- Witness for the producer filter at a concrete three-byte message. -/
theorem handleIncomingMidiMessage_behaviour_witness :
    handleIncomingMidiMessage 4 [] 3 [144, 60, 100] =
      [{ time := 0, size := 3, data := [144, 60, 100, 0] }] ∧
    (convertRtMidiEvent 100 512 ⟨0, 3, [144, 60, 100, 0]⟩).time = 0 := by
  have h := handleIncomingMidiMessage_behaviour 4 [] 3 [144, 60, 100] (by decide)
  refine ⟨?_, ?_⟩
  · have h2 := (h.2.1 (by decide) (by decide)).1
    simpa using h2
  · exact h.2.2 100 512 (by decide) _ rfl

end Carla
